import Mathlib

/-
Shallow embedding of the Clerk JWT authentication middleware
(server/app/app/middleware.py): the ClerkSDK cache-backed fetchers
(fetch_user_info, get_jwks) and the JWTAuthenticationMiddleware
(authenticate, decode_jwt), over an explicit state (Django cache,
relational user store, event trace) and a read-only environment
(HTTP responses of the Clerk API).
-/

set_option autoImplicit false

namespace Pamahres

/-- Python-level exceptions that can escape the middleware functions:
AuthenticationFailed with its message, an uncaught KeyError on a missing
dict key, an uncaught IndexError on list indexing, and the database
IntegrityError raised by a unique-constraint violation on insert
(the migration 0008 makes User.username unique). -/
inductive PyError where
  | authFailed (msg : String)
  | keyError (key : String)
  | indexError
  | integrityError
  deriving DecidableEq, Repr

/-- One JWK entry of the JWKS blob. The key id is carried because the
JWKS format has it, but the middleware never reads it (no key-id
matching); the abstract key material is what RSAAlgorithm.from_jwk
turns into a public key. -/
structure Jwk where
  kid : String
  material : Nat
  deriving DecidableEq, Repr

/-- The JSON body served at /.well-known/jwks.json, as a dict that may
or may not have a "keys" entry holding a list of JWK records. -/
structure JwksData where
  keys? : Option (List Jwk)
  deriving DecidableEq, Repr

/-- Python truthiness of the JWKS dict, used by get_jwks in
`if not jwks_data`. We model the body as a dict whose only possible
entry is "keys", so the dict is truthy exactly when that entry is
present. -/
def JwksData.isTruthy (d : JwksData) : Bool :=
  d.keys?.isSome

/-- RSAAlgorithm.from_jwk: derives the verification public key from a
JWK record; modelled as extraction of the abstract key material. -/
def from_jwk (j : Jwk) : Nat :=
  j.material

/-- The JSON body of GET /v1/users/:id, with the fields the middleware
reads: email_addresses (a list of entries, each with an email_address
field, modelled by that field alone), first_name, last_name, and
last_sign_in_at in milliseconds since the epoch. -/
structure ClerkUserData where
  email_addresses : List String
  first_name : String
  last_name : String
  last_sign_in_at : Int
  deriving DecidableEq, Repr

/-- The dict returned by fetch_user_info. last_login = some ms stands
for datetime.fromtimestamp(ms / 1000, tz=UTC); the raw millisecond
value is kept since the conversion is injective and no caller compares
converted values. -/
structure UserInfoParsed where
  email_address : String
  first_name : String
  last_name : String
  last_login : Option Int
  deriving DecidableEq, Repr

/-- Timeout of a cache entry: never expiring, or an explicit number of
seconds. -/
inductive Timeout where
  | never
  | seconds (n : Nat)
  deriving DecidableEq, Repr

/-- The Django cache, restricted to the keys this code touches:
"jwks_data" and "user_info_{user_id}". Each entry carries the timeout
it was stored with. -/
structure Cache where
  jwksEntry : Option (JwksData × Timeout)
  userInfo : List (String × ClerkUserData × Timeout)
  deriving DecidableEq, Repr

/-- cache.get of a user_info_{uid} key. -/
def Cache.getUserInfo (c : Cache) (uid : String) : Option ClerkUserData :=
  (c.userInfo.find? (fun e => e.1 == uid)).map (fun e => e.2.1)

/-- cache.set of a user_info_{uid} key. -/
def Cache.setUserInfo (c : Cache) (uid : String) (d : ClerkUserData) (t : Timeout) : Cache :=
  { c with userInfo := (uid, d, t) :: c.userInfo }

/-- A row of the local User table; the fields decode_jwt writes. -/
structure UserRec where
  username : String
  first_name : String
  last_name : String
  email : String
  deriving DecidableEq, Repr

/-- Observable side effects, in chronological order: outbound HTTP GETs
and row creations. -/
inductive Event where
  | httpGetJwks
  | httpGetUserInfo (uid : String)
  | createUser (uid : String)
  | createProfile (uid : String)
  | createActivity (uid : String)
  deriving DecidableEq, Repr

/-- The relational store: User rows, and Profile / UserActivity rows
recorded by the username of the User they are tied to. -/
structure Db where
  users : List UserRec
  profiles : List String
  activities : List String
  deriving DecidableEq, Repr

/-- User.objects.get(username=uid), as a lookup; uniqueness of
username (migration 0008) makes the first match the only match. -/
def Db.findUser (db : Db) (uid : String) : Option UserRec :=
  db.users.find? (fun u => u.username == uid)

/-- The mutable state an invocation can read and write: the shared
cache, the relational store, and the trace of effects performed. -/
structure St where
  cache : Cache
  db : Db
  events : List Event
  deriving DecidableEq, Repr

/-- Abstract view of a compact JWS token string: whether its three-part
structure parses, the public counterpart of the key that signed it, the
exp claim if present, whether every other registered-claim validation
passes, and the payload dict. -/
structure Token where
  wellFormed : Bool
  sigKey : Nat
  exp? : Option Int
  otherwiseValid : Bool
  claims : List (String × String)
  deriving DecidableEq, Repr

/-- Read-only environment: what the Clerk endpoints would answer, and
how a token string parses as a JWT. -/
structure World where
  jwksStatus : Nat
  jwksBody : JwksData
  userInfoStatus : String → Nat
  userInfoBody : String → ClerkUserData
  parseToken : String → Token

/-- Outcomes of PyJWT jwt.decode that the middleware distinguishes.
decodeError covers jwt.DecodeError and its subclass
jwt.InvalidSignatureError; invalidToken covers every other subclass of
jwt.InvalidTokenError. -/
inductive JwtError where
  | expiredSignature
  | decodeError
  | invalidToken
  deriving DecidableEq, Repr

/-- Model of PyJWT jwt.decode(token, key, algorithms=["RS256"],
options={"verify_signature": True}). api_jwt.decode_complete first runs
the JWS layer, which raises DecodeError on a malformed token and
InvalidSignatureError (a subclass of DecodeError) when the signature
does not verify against the supplied key; only then are the registered
claims validated, where a passed exp raises ExpiredSignatureError and
any other claim failure raises a subclass of InvalidTokenError. -/
def jwtDecode (tok : Token) (key : Nat) (now : Int) :
    Except JwtError (List (String × String)) :=
  if !tok.wellFormed then .error .decodeError
  else if tok.sigKey != key then .error .decodeError
  else
    match tok.exp? with
    | some e =>
        if e < now then .error .expiredSignature
        else if !tok.otherwiseValid then .error .invalidToken
        else .ok tok.claims
    | none =>
        if !tok.otherwiseValid then .error .invalidToken
        else .ok tok.claims

/-- dict.get on the token payload. -/
def dictGet (l : List (String × String)) (k : String) : Option String :=
  (l.find? (fun p => p.1 == k)).map (fun p => p.2)

/-- Construction of the dict literal that fetch_user_info returns on the
cached and 200 paths: `data["email_addresses"][0]["email_address"]`
raises IndexError when the email list is empty. -/
def parseUserData (d : ClerkUserData) : Except PyError UserInfoParsed :=
  match d.email_addresses with
  | [] => .error .indexError
  | e :: _ =>
      .ok { email_address := e
            first_name := d.first_name
            last_name := d.last_name
            last_login := some d.last_sign_in_at }

/-- ClerkSDK.fetch_user_info: on a cache hit parse the cached raw body
and return it with success True; on a miss GET /v1/users/:uid, and on
status 200 cache the raw body for 24 hours and return the parsed body
with True, otherwise return a zero-valued record with False. -/
def fetch_user_info (w : World) (uid : String) (s : St) :
    Except PyError (UserInfoParsed × Bool) × St :=
  match s.cache.getUserInfo uid with
  | some cached =>
      ((parseUserData cached).map (fun i => (i, true)), s)
  | none =>
      let s1 : St := { s with events := s.events ++ [.httpGetUserInfo uid] }
      if w.userInfoStatus uid = 200 then
        let data := w.userInfoBody uid
        let s2 : St := { s1 with cache := s1.cache.setUserInfo uid data (.seconds 86400) }
        ((parseUserData data).map (fun i => (i, true)), s2)
      else
        (.ok ({ email_address := ""
                first_name := ""
                last_name := ""
                last_login := none }, false), s1)

/-- Modelled from the spec: the expiry of cache.set("jwks_data", body)
with the timeout argument omitted is decided by the DEFAULT_TIMEOUT of
the Django settings, which are not under src; the spec states the key
set is stored "with no expiry" (and the source comment reads "Cache
indefinitely"), so the omitted argument is modelled as a never-expiring
store. -/
def jwksStoreTimeout : Timeout := .never

/-- The cache-miss branch of get_jwks: GET the well-known JWKS endpoint;
on 200 store the body under "jwks_data" (cache.set without a timeout
argument, see jwksStoreTimeout) and return it, otherwise raise
AuthenticationFailed("Failed to fetch JWKS."). -/
def fetchJwksFromProvider (w : World) (s : St) : Except PyError JwksData × St :=
  let s1 : St := { s with events := s.events ++ [.httpGetJwks] }
  if w.jwksStatus = 200 then
    (.ok w.jwksBody,
     { s1 with cache := { s1.cache with jwksEntry := some (w.jwksBody, jwksStoreTimeout) } })
  else
    (.error (.authFailed "Failed to fetch JWKS."), s1)

/-- ClerkSDK.get_jwks: `if not jwks_data` refetches both when the cache
has no entry and when the cached dict is falsy. -/
def get_jwks (w : World) (s : St) : Except PyError JwksData × St :=
  match s.cache.jwksEntry with
  | some (d, _) =>
      if d.isTruthy then (.ok d, s) else fetchJwksFromProvider w s
  | none => fetchJwksFromProvider w s

/-- User.objects.create: the unique constraint on username (migration
0008) makes a duplicate insert raise IntegrityError. -/
def createUser (s : St) (u : UserRec) : Except PyError UserRec × St :=
  match s.db.findUser u.username with
  | some _ => (.error .integrityError, s)
  | none =>
      (.ok u,
       { s with db := { s.db with users := s.db.users ++ [u] }
                events := s.events ++ [.createUser u.username] })

/-- Profile.objects.create(user=user). -/
def createProfile (s : St) (uid : String) : St :=
  { s with db := { s.db with profiles := s.db.profiles ++ [uid] }
           events := s.events ++ [.createProfile uid] }

/-- UserActivity.objects.create(user=user). -/
def createActivity (s : St) (uid : String) : St :=
  { s with db := { s.db with activities := s.db.activities ++ [uid] }
           events := s.events ++ [.createActivity uid] }

/-- JWTAuthenticationMiddleware.decode_jwt: fetch the JWKS, take
jwks_data["keys"][0] as the verification key, decode the token mapping
the PyJWT exceptions to AuthenticationFailed messages, then on success
read payload.get("sub"); a truthy sub is resolved against the local
User table, creating User, Profile and UserActivity on a miss. -/
def decode_jwt (w : World) (now : Int) (tok : Token) (s : St) :
    Except PyError (Option UserRec) × St :=
  match get_jwks w s with
  | (.error e, s1) => (.error e, s1)
  | (.ok jwks_data, s1) =>
    match jwks_data.keys? with
    | none => (.error (.keyError "keys"), s1)
    | some keys =>
      match keys with
      | [] => (.error .indexError, s1)
      | k0 :: _ =>
        let public_key := from_jwk k0
        match jwtDecode tok public_key now with
        | .error .expiredSignature => (.error (.authFailed "Token has expired."), s1)
        | .error .decodeError => (.error (.authFailed "Token decode error."), s1)
        | .error .invalidToken => (.error (.authFailed "Invalid token."), s1)
        | .ok payload =>
          match dictGet payload "sub" with
          | none => (.ok none, s1)
          | some user_id =>
            if user_id = "" then (.ok none, s1)
            else
              match s1.db.findUser user_id with
              | some user => (.ok (some user), s1)
              | none =>
                match fetch_user_info w user_id s1 with
                | (.error e, s2) => (.error e, s2)
                | (.ok (info, _found), s2) =>
                  let newUser : UserRec :=
                    { username := user_id
                      first_name := info.first_name
                      last_name := info.last_name
                      email := info.email_address }
                  match createUser s2 newUser with
                  | (.error e, s3) => (.error e, s3)
                  | (.ok user, s3) =>
                    let s4 := createProfile s3 user_id
                    let s5 := createActivity s4 user_id
                    (.ok (some user), s5)

/-- Python str.split(" ") on a list of characters: explicit single-space
separator, so adjacent separators and ends produce empty components and
the empty string splits to one empty component. -/
def splitOnSpace : List Char → List (List Char)
  | [] => [[]]
  | c :: cs =>
      if c = ' ' then [] :: splitOnSpace cs
      else
        match splitOnSpace cs with
        | [] => [[c]]
        | p :: ps => (c :: p) :: ps

/-- JWTAuthenticationMiddleware.authenticate: a missing or falsy (empty)
Authorization header yields None; auth_header.split(" ")[1] raising
IndexError yields AuthenticationFailed("Bearer token not provided.");
otherwise the extracted token is decoded and a None user yields None,
a found user yields (user, None) - modelled as some user. -/
def authenticate (w : World) (now : Int) (authHeader : Option String) (s : St) :
    Except PyError (Option UserRec) × St :=
  match authHeader with
  | none => (.ok none, s)
  | some h =>
    if h = "" then (.ok none, s)
    else
      match (splitOnSpace h.data).get? 1 with
      | none => (.error (.authFailed "Bearer token not provided."), s)
      | some tokChars =>
        match decode_jwt w now (w.parseToken (String.mk tokChars)) s with
        | (.error e, s1) => (.error e, s1)
        | (.ok none, s1) => (.ok none, s1)
        | (.ok (some user), s1) => (.ok (some user), s1)

deriving instance DecidableEq for Except

/-- Spec-side reading of a success HTTP status: the 2xx class. -/
def httpSuccessCode (c : Nat) : Bool :=
  200 ≤ c && c < 300

/-- Cache-miss condition of get_jwks: no entry, or a falsy cached dict. -/
def jwksCacheMiss (s : St) : Prop :=
  s.cache.jwksEntry = none ∨
  ∃ d t, s.cache.jwksEntry = some (d, t) ∧ d.isTruthy = false

/- Concrete fixtures for counterexamples and witnesses. -/

def jwkA : Jwk := { kid := "kidA", material := 5 }

def jwkB : Jwk := { kid := "kidB", material := 7 }

def jwksAB : JwksData := { keys? := some [jwkA, jwkB] }

def jwksNoKeys : JwksData := { keys? := none }

def clerkBody123 : ClerkUserData :=
  { email_addresses := ["a@b.com"]
    first_name := "A"
    last_name := "B"
    last_sign_in_at := 1700000000000 }

/-- A well-formed token signed with abstract key sk, carrying an
optional exp claim and a sub claim. -/
def tokenOf (sk : Nat) (e : Option Int) (sub : String) : Token :=
  { wellFormed := true
    sigKey := sk
    exp? := e
    otherwiseValid := true
    claims := [("sub", sub)] }

def world0 : World :=
  { jwksStatus := 200
    jwksBody := jwksAB
    userInfoStatus := fun _ => 200
    userInfoBody := fun _ => clerkBody123
    parseToken := fun _ => tokenOf 5 none "user_123" }

def world204 : World := { world0 with jwksStatus := 204 }

def world404 : World := { world0 with userInfoStatus := fun _ => 404 }

def worldNoKeys : World := { world0 with jwksBody := jwksNoKeys }

def emptyDb : Db := { users := [], profiles := [], activities := [] }

def st0 : St :=
  { cache := { jwksEntry := some (jwksAB, .never), userInfo := [] }
    db := emptyDb
    events := [] }

def stNoJwks : St :=
  { cache := { jwksEntry := none, userInfo := [] }
    db := emptyDb
    events := [] }

def u123 : UserRec :=
  { username := "user_123", first_name := "A", last_name := "B", email := "a@b.com" }

/-- State expected after first-time provisioning of user_123 from st0. -/
def st123 : St :=
  { cache := { jwksEntry := some (jwksAB, .never)
               userInfo := [("user_123", clerkBody123, .seconds 86400)] }
    db := { users := [u123], profiles := ["user_123"], activities := ["user_123"] }
    events := [.httpGetUserInfo "user_123", .createUser "user_123",
               .createProfile "user_123", .createActivity "user_123"] }

/-- State in which user_123 already exists locally. -/
def stWithUser : St :=
  { cache := { jwksEntry := some (jwksAB, .never), userInfo := [] }
    db := { users := [u123], profiles := ["user_123"], activities := ["user_123"] }
    events := [] }

def jwksEmptyKeys : JwksData := { keys? := some [] }

/-- State whose cached JWKS dict has an empty keys list (truthy, so it
is served from the cache). -/
def stEmptyKeys : St :=
  { cache := { jwksEntry := some (jwksEmptyKeys, .never), userInfo := [] }
    db := emptyDb
    events := [] }

/-- State after get_jwks has fetched and cached the no-keys body from
worldNoKeys starting at stNoJwks. -/
def stNoKeysFetched : St :=
  { cache := { jwksEntry := some (jwksNoKeys, .never), userInfo := [] }
    db := emptyDb
    events := [.httpGetJwks] }

/-- State whose cached JWKS entry holds a falsy dict (a body with no
"keys" entry): the cache holds a value under jwks_data, but
`if not jwks_data` treats it as a miss. -/
def stFalsyJwks : St :=
  { cache := { jwksEntry := some (jwksNoKeys, .never), userInfo := [] }
    db := emptyDb
    events := [] }

/- Helper lemmas shared by the claim theorems. -/

theorem jwtDecode_sig_ne (tok : Token) (key : Nat) (now : Int)
    (h : tok.sigKey ≠ key) : jwtDecode tok key now = .error .decodeError := by
  cases hwf : tok.wellFormed <;> simp [jwtDecode, hwf, h]

theorem get_jwks_cache_hit (w : World) (s : St) (d : JwksData) (t : Timeout)
    (hc : s.cache.jwksEntry = some (d, t)) (ht : d.isTruthy = true) :
    get_jwks w s = (.ok d, s) := by
  unfold get_jwks
  rw [hc]
  simp [ht]

theorem get_jwks_error_eq (w : World) (s : St) (e : PyError) (s1 : St)
    (h : get_jwks w s = (.error e, s1)) :
    e = .authFailed "Failed to fetch JWKS." := by
  unfold get_jwks fetchJwksFromProvider at h
  repeat' split at h <;> simp_all

theorem parseUserData_error_eq (d : ClerkUserData) (e : PyError)
    (h : parseUserData d = .error e) : e = .indexError := by
  unfold parseUserData at h
  split at h <;> simp_all

theorem fetch_user_info_error_eq (w : World) (uid : String) (s : St)
    (e : PyError) (s1 : St)
    (h : fetch_user_info w uid s = (.error e, s1)) : e = .indexError := by
  unfold fetch_user_info at h
  rcases hc : s.cache.getUserInfo uid with _ | cached
  · simp only [hc] at h
    by_cases hst : w.userInfoStatus uid = 200
    · simp only [if_pos hst] at h
      rcases hp : parseUserData (w.userInfoBody uid) with er | v
      · simp only [hp, Except.map, Prod.mk.injEq, Except.error.injEq] at h
        exact h.1 ▸ parseUserData_error_eq _ _ hp
      · simp [hp, Except.map] at h
    · simp only [if_neg hst] at h
      simp at h
  · simp only [hc] at h
    rcases hp : parseUserData cached with er | v
    · simp only [hp, Except.map, Prod.mk.injEq, Except.error.injEq] at h
      exact h.1 ▸ parseUserData_error_eq _ _ hp
    · simp [hp, Except.map] at h

theorem createUser_error_eq (s : St) (u : UserRec) (e : PyError) (s1 : St)
    (h : createUser s u = (.error e, s1)) : e = .integrityError := by
  unfold createUser at h
  repeat' split at h <;> simp_all

theorem splitOnSpace_ne_nil (l : List Char) : splitOnSpace l ≠ [] := by
  cases l with
  | nil => simp [splitOnSpace]
  | cons c cs =>
    by_cases hc : c = ' '
    · simp [splitOnSpace, hc]
    · simp only [splitOnSpace, if_neg hc]
      cases hsp : splitOnSpace cs <;> simp

theorem splitOnSpace_no_space (l : List Char) (h : ' ' ∉ l) :
    splitOnSpace l = [l] := by
  induction l with
  | nil => rfl
  | cons c cs ih =>
    rw [List.mem_cons, not_or] at h
    have hc : ¬ c = ' ' := fun hcc => h.1 hcc.symm
    rw [splitOnSpace, if_neg hc, ih h.2]

theorem splitOnSpace_length_of_mem (l : List Char) (h : ' ' ∈ l) :
    2 ≤ (splitOnSpace l).length := by
  induction l with
  | nil => cases h
  | cons c cs ih =>
    by_cases hc : c = ' '
    · have hne := splitOnSpace_ne_nil cs
      have h1 : 1 ≤ (splitOnSpace cs).length := by
        rcases hsp : splitOnSpace cs with _ | ⟨p, ps⟩
        · exact absurd hsp hne
        · simp
      simp only [splitOnSpace, if_pos hc, List.length_cons]
      omega
    · have hcs : ' ' ∈ cs := by
        rcases List.mem_cons.mp h with h1 | h2
        · exact absurd h1.symm hc
        · exact h2
      have h2 := ih hcs
      simp only [splitOnSpace, if_neg hc]
      rcases hsp : splitOnSpace cs with _ | ⟨p, ps⟩
      · exact absurd hsp (splitOnSpace_ne_nil cs)
      · rw [hsp] at h2
        simpa using h2

theorem decode_jwt_not_bearer (w : World) (now : Int) (tok : Token) (s : St) :
    (decode_jwt w now tok s).1 ≠
      .error (.authFailed "Bearer token not provided.") := by
  unfold decode_jwt
  rcases hg : get_jwks w s with ⟨r, s1⟩
  rcases r with e | jd
  · have he := get_jwks_error_eq w s e s1 hg
    subst he
    simp [hg]
  · rcases hk : jd.keys? with _ | keys
    · simp [hg, hk]
    · rcases keys with _ | ⟨k0, rest⟩
      · simp [hg, hk]
      · rcases hd : jwtDecode tok (from_jwk k0) now with je | payload
        · rcases je <;> simp [hg, hk, hd]
        · rcases hs : dictGet payload "sub" with _ | uid
          · simp [hg, hk, hd, hs]
          · by_cases hu : uid = ""
            · simp [hg, hk, hd, hs, hu]
            · rcases hf : s1.db.findUser uid with _ | u
              · rcases hfi : fetch_user_info w uid s1 with ⟨ri, s2⟩
                rcases ri with ei | info
                · have hei := fetch_user_info_error_eq w uid s1 ei s2 hfi
                  subst hei
                  simp [hg, hk, hd, hs, hu, hf, hfi]
                · rcases info with ⟨info, found⟩
                  rcases hcu : createUser s2
                      { username := uid, first_name := info.first_name,
                        last_name := info.last_name, email := info.email_address } with ⟨rc, s3⟩
                  rcases rc with ec | user
                  · have hec := createUser_error_eq s2 _ ec s3 hcu
                    subst hec
                    simp [hg, hk, hd, hs, hu, hf, hfi, hcu]
                  · simp [hg, hk, hd, hs, hu, hf, hfi, hcu]
              · simp [hg, hk, hd, hs, hu, hf]

theorem authenticate_some (w : World) (now : Int) (h : String) (s : St) :
    authenticate w now (some h) s =
      if h = "" then (.ok none, s)
      else
        match (splitOnSpace h.data).get? 1 with
        | none => (.error (.authFailed "Bearer token not provided."), s)
        | some tokChars =>
          match decode_jwt w now (w.parseToken (String.mk tokChars)) s with
          | (.error e, s1) => (.error e, s1)
          | (.ok none, s1) => (.ok none, s1)
          | (.ok (some user), s1) => (.ok (some user), s1) := rfl

/-- C8: for every request carrying no Authorization header, authenticate
returns None (no identity asserted) and never raises. -/
theorem C8_no_header_returns_none (w : World) (now : Int) (s : St) :
    authenticate w now none s = (.ok none, s) := rfl

/-- C7 counterexample: a request whose Authorization header is present
with the empty value contains no space-separated scheme+token pair, yet
authenticate returns None instead of failing with
AuthenticationFailed("Bearer token not provided."). -/
theorem C7_counterexample :
    (' ' ∉ "".data) ∧
    authenticate world0 0 (some "") st0 = (.ok none, st0) ∧
    (Except.ok (ε := PyError) (none : Option UserRec) ≠
      .error (.authFailed "Bearer token not provided.")) := by
  refine ⟨by decide, by decide, by decide⟩

/-- C7 (amended): for every request whose Authorization header value is
non-empty and contains no space, authenticate fails with
AuthenticationFailed("Bearer token not provided."); an empty header
value instead falls under the falsy-header check and yields None. -/
theorem C7_no_space_rejected (w : World) (now : Int) (h : String) (s : St)
    (hne : h ≠ "") (hsp : ' ' ∉ h.data) :
    authenticate w now (some h) s =
      (.error (.authFailed "Bearer token not provided."), s) := by
  rw [authenticate_some, if_neg hne, splitOnSpace_no_space h.data hsp]
  rfl

/-- C7 witness at the concrete spaceless header value "Bearerabc". -/
theorem C7_witness :
    authenticate world0 0 (some "Bearerabc") st0 =
      (.error (.authFailed "Bearer token not provided."), st0) :=
  C7_no_space_rejected world0 0 "Bearerabc" st0 (by decide) (by decide)

/-- C10: token extraction takes exactly the second space-separated
component of the header, so a header containing at least one space never
produces the "Bearer token not provided." failure; in particular the
header "Bearer " (trailing space) passes the empty-string token on to
JWT decoding. -/
theorem C10_second_component (w : World) (now : Int) (h : String) (s : St)
    (hsp : ' ' ∈ h.data) :
    (authenticate w now (some h) s).1 ≠
      .error (.authFailed "Bearer token not provided.") ∧
    authenticate w now (some "Bearer ") s =
      decode_jwt w now (w.parseToken "") s := by
  constructor
  · have hne : h ≠ "" := by
      intro hh
      rw [hh] at hsp
      simp at hsp
    have hlen := splitOnSpace_length_of_mem h.data hsp
    obtain ⟨tcs, htcs⟩ : ∃ tcs, (splitOnSpace h.data).get? 1 = some tcs := by
      rcases hgq : (splitOnSpace h.data).get? 1 with _ | t
      · have := List.get?_eq_none.mp hgq
        omega
      · exact ⟨t, rfl⟩
    have hred : authenticate w now (some h) s =
        match decode_jwt w now (w.parseToken (String.mk tcs)) s with
        | (.error e, s1) => (.error e, s1)
        | (.ok none, s1) => (.ok none, s1)
        | (.ok (some user), s1) => (.ok (some user), s1) := by
      rw [authenticate_some, if_neg hne, htcs]
    rw [hred]
    have hnb := decode_jwt_not_bearer w now (w.parseToken (String.mk tcs)) s
    rcases hd : decode_jwt w now (w.parseToken (String.mk tcs)) s with ⟨r, s1⟩
    rw [hd] at hnb
    rcases r with e | u
    · simpa using hnb
    · rcases u with _ | u <;> simp
  · have hauth : authenticate w now (some "Bearer ") s =
        match decode_jwt w now (w.parseToken "") s with
        | (.error e, s1) => (.error e, s1)
        | (.ok none, s1) => (.ok none, s1)
        | (.ok (some user), s1) => (.ok (some user), s1) := rfl
    rw [hauth]
    rcases hd : decode_jwt w now (w.parseToken "") s with ⟨r, s1⟩
    rcases r with e | u
    · rfl
    · rcases u with _ | u <;> rfl

/-- C10 witness at the concrete header "Bearer abc", which contains a
space. -/
theorem C10_witness :
    (authenticate world0 0 (some "Bearer abc") st0).1 ≠
      .error (.authFailed "Bearer token not provided.") ∧
    authenticate world0 0 (some "Bearer ") st0 =
      decode_jwt world0 0 (world0.parseToken "") st0 :=
  C10_second_component world0 0 "Bearer abc" st0 (by decide)

/-- C1 counterexample: a token that is both expired (exp 0 at now 100)
and signed by a key different from the one at index 0 of the key set is
rejected with "Token decode error." (PyJWT verifies the signature before
validating exp, and InvalidSignatureError is a DecodeError), not with
"Token has expired." as the claim states for every expired token. -/
theorem C1_counterexample :
    (tokenOf 7 (some 0) "user_456").exp? = some 0 ∧ (0 : Int) < 100 ∧
    (tokenOf 7 (some 0) "user_456").sigKey ≠ from_jwk jwkA ∧
    jwksAB.keys? = some [jwkA, jwkB] ∧
    (decode_jwt world0 100 (tokenOf 7 (some 0) "user_456") st0).1 ≠
      .error (.authFailed "Token has expired.") ∧
    (decode_jwt world0 100 (tokenOf 7 (some 0) "user_456") st0).1 =
      .error (.authFailed "Token decode error.") := by
  decide

/-- C1 (amended): for every token whose expiry time has passed and whose
signature verifies against the selected index-0 public key, decode_jwt
fails with AuthenticationFailed("Token has expired."); when the
signature does not verify against that key, the expired token is instead
rejected with AuthenticationFailed("Token decode error."). -/
theorem C1_expired_token (w : World) (now : Int) (tok : Token) (s : St)
    (jd : JwksData) (s1 : St) (k0 : Jwk) (rest : List Jwk) (e : Int)
    (hg : get_jwks w s = (.ok jd, s1))
    (hk : jd.keys? = some (k0 :: rest))
    (hwf : tok.wellFormed = true)
    (hexp : tok.exp? = some e) (he : e < now) :
    (tok.sigKey = from_jwk k0 →
        decode_jwt w now tok s = (.error (.authFailed "Token has expired."), s1)) ∧
    (tok.sigKey ≠ from_jwk k0 →
        decode_jwt w now tok s = (.error (.authFailed "Token decode error."), s1)) := by
  constructor
  · intro hsig
    have hd : jwtDecode tok (from_jwk k0) now = .error .expiredSignature := by
      simp [jwtDecode, hwf, hsig, hexp, he]
    unfold decode_jwt
    rw [hg]
    simp [hk, hd]
  · intro hsig
    have hd := jwtDecode_sig_ne tok (from_jwk k0) now hsig
    unfold decode_jwt
    rw [hg]
    simp [hk, hd]

/-- C1 witness: an expired token with a valid signature yields "Token
has expired.", and an expired token with an invalid signature yields
"Token decode error.". -/
theorem C1_witness :
    decode_jwt world0 100 (tokenOf 5 (some 0) "user_123") st0 =
      (.error (.authFailed "Token has expired."), st0) ∧
    decode_jwt world0 100 (tokenOf 7 (some 0) "user_456") st0 =
      (.error (.authFailed "Token decode error."), st0) :=
  ⟨(C1_expired_token world0 100 (tokenOf 5 (some 0) "user_123") st0 jwksAB st0 jwkA [jwkB] 0
      (by decide) (by decide) (by decide) (by decide) (by decide)).1 (by decide),
   (C1_expired_token world0 100 (tokenOf 7 (some 0) "user_456") st0 jwksAB st0 jwkA [jwkB] 0
      (by decide) (by decide) (by decide) (by decide) (by decide)).2 (by decide)⟩

/-- C2: decode_jwt verifies against the key derived from entry 0 of the
fetched key set only, so a token signed by a key that is in the set but
not at index 0 (and whose key material differs from the index-0 entry)
is rejected, with the invalid-signature path message
"Token decode error.". -/
theorem C2_key_index_zero (w : World) (now : Int) (tok : Token) (s : St)
    (jd : JwksData) (s1 : St) (k0 kj : Jwk) (rest : List Jwk)
    (hg : get_jwks w s = (.ok jd, s1))
    (hk : jd.keys? = some (k0 :: rest))
    (hmem : kj ∈ k0 :: rest)
    (hsig : tok.sigKey = from_jwk kj)
    (hdiff : from_jwk kj ≠ from_jwk k0) :
    decode_jwt w now tok s = (.error (.authFailed "Token decode error."), s1) := by
  have hne : tok.sigKey ≠ from_jwk k0 := by rw [hsig]; exact hdiff
  have hd := jwtDecode_sig_ne tok (from_jwk k0) now hne
  unfold decode_jwt
  rw [hg]
  simp [hk, hd]

/-- C2 witness: a token signed by jwkB, the entry at index 1 of the key
set, is rejected. -/
theorem C2_witness :
    decode_jwt world0 0 (tokenOf (from_jwk jwkB) none "user_123") st0 =
      (.error (.authFailed "Token decode error."), st0) :=
  C2_key_index_zero world0 0 (tokenOf (from_jwk jwkB) none "user_123") st0
    jwksAB st0 jwkA jwkB [jwkB]
    (by decide) (by decide) (by decide) (by decide) (by decide)

/-- C9: when the key set returned by get_jwks has no "keys" entry,
decode_jwt raises an uncaught KeyError, and when the "keys" list is
empty it raises an uncaught IndexError; neither is an
AuthenticationFailed. -/
theorem C9_missing_keys_uncaught (w : World) (now : Int) (tok : Token) (s : St)
    (jd : JwksData) (s1 : St)
    (hg : get_jwks w s = (.ok jd, s1)) :
    (jd.keys? = none →
        decode_jwt w now tok s = (.error (.keyError "keys"), s1) ∧
        ∀ m, (PyError.keyError "keys") ≠ (PyError.authFailed m)) ∧
    (jd.keys? = some [] →
        decode_jwt w now tok s = (.error .indexError, s1) ∧
        ∀ m, (PyError.indexError : PyError) ≠ (PyError.authFailed m)) := by
  constructor <;> intro hk
  · refine ⟨?_, fun m h => PyError.noConfusion h⟩
    unfold decode_jwt
    rw [hg]
    simp [hk]
  · refine ⟨?_, fun m h => PyError.noConfusion h⟩
    unfold decode_jwt
    rw [hg]
    simp [hk]

/-- C9 witness: a freshly fetched body without a "keys" entry gives the
KeyError, and a cached body with an empty "keys" list gives the
IndexError. -/
theorem C9_witness :
    decode_jwt worldNoKeys 0 (tokenOf 5 none "u") stNoJwks =
      (.error (.keyError "keys"), stNoKeysFetched) ∧
    decode_jwt world0 0 (tokenOf 5 none "u") stEmptyKeys =
      (.error .indexError, stEmptyKeys) :=
  ⟨((C9_missing_keys_uncaught worldNoKeys 0 (tokenOf 5 none "u") stNoJwks
      jwksNoKeys stNoKeysFetched (by decide)).1 (by decide)).1,
   ((C9_missing_keys_uncaught world0 0 (tokenOf 5 none "u") stEmptyKeys
      jwksEmptyKeys stEmptyKeys (by decide)).2 (by decide)).1⟩

/-- C3: first-time provisioning of subject "user_123" with the provider
responding 200 with email a@b.com, names A and B, and last_sign_in_at
1700000000000 creates exactly one User with username user_123 and email
a@b.com, exactly one Profile and exactly one UserActivity tied to it,
in the order User, then Profile, then UserActivity, as the final state
st123 (its users, profiles, activities and event trace) records. -/
theorem C3_first_provisioning :
    decode_jwt world0 100 (tokenOf (from_jwk jwkA) none "user_123") st0 =
      (.ok (some u123), st123) := by
  decide

/-- C4: when a local User with the requested subject ID already exists,
decode_jwt returns it unchanged, creates nothing, leaves the whole state
untouched, and a second sequential call yields the same record again. -/
theorem C4_existing_user (w : World) (now : Int) (tok : Token) (s : St)
    (jd : JwksData) (t : Timeout) (k0 : Jwk) (rest : List Jwk)
    (payload : List (String × String)) (uid : String) (u : UserRec)
    (hc : s.cache.jwksEntry = some (jd, t)) (ht : jd.isTruthy = true)
    (hk : jd.keys? = some (k0 :: rest))
    (hdec : jwtDecode tok (from_jwk k0) now = .ok payload)
    (hsub : dictGet payload "sub" = some uid) (huid : uid ≠ "")
    (hfound : s.db.findUser uid = some u) :
    decode_jwt w now tok s = (.ok (some u), s) ∧
    decode_jwt w now tok (decode_jwt w now tok s).2 = (.ok (some u), s) := by
  have h1 : decode_jwt w now tok s = (.ok (some u), s) := by
    unfold decode_jwt
    rw [get_jwks_cache_hit w s jd t hc ht]
    simp [hk, hdec, hsub, huid, hfound]
  refine ⟨h1, ?_⟩
  rw [h1]
  exact h1

/-- C4 witness at stWithUser, where user_123 already exists. -/
theorem C4_witness :
    decode_jwt world0 0 (tokenOf 5 none "user_123") stWithUser =
      (.ok (some u123), stWithUser) ∧
    decode_jwt world0 0 (tokenOf 5 none "user_123")
        (decode_jwt world0 0 (tokenOf 5 none "user_123") stWithUser).2 =
      (.ok (some u123), stWithUser) :=
  C4_existing_user world0 0 (tokenOf 5 none "user_123") stWithUser
    jwksAB .never jwkA [jwkB] [("sub", "user_123")] "user_123" u123
    (by decide) (by decide) (by decide) (by decide) (by decide) (by decide) (by decide)

/-- C5: when the user-info cache misses and the provider answers non-200
during first-time provisioning, fetch_user_info returns the zero-valued
record with success false instead of raising, and decode_jwt still
creates a User with empty-string names and email, plus its Profile and
UserActivity. -/
theorem C5_soft_failure (w : World) (now : Int) (tok : Token) (s : St)
    (jd : JwksData) (t : Timeout) (k0 : Jwk) (rest : List Jwk)
    (payload : List (String × String)) (uid : String)
    (hc : s.cache.jwksEntry = some (jd, t)) (ht : jd.isTruthy = true)
    (hk : jd.keys? = some (k0 :: rest))
    (hdec : jwtDecode tok (from_jwk k0) now = .ok payload)
    (hsub : dictGet payload "sub" = some uid) (huid : uid ≠ "")
    (hmiss : s.cache.getUserInfo uid = none)
    (hstatus : w.userInfoStatus uid ≠ 200)
    (hnew : s.db.findUser uid = none) :
    fetch_user_info w uid s =
      (.ok ({ email_address := "", first_name := "", last_name := "",
              last_login := none }, false),
       { s with events := s.events ++ [.httpGetUserInfo uid] }) ∧
    decode_jwt w now tok s =
      (.ok (some { username := uid, first_name := "", last_name := "", email := "" }),
       { s with
           db := { users := s.db.users ++
                     [{ username := uid, first_name := "", last_name := "", email := "" }]
                   profiles := s.db.profiles ++ [uid]
                   activities := s.db.activities ++ [uid] }
           events := s.events ++ [.httpGetUserInfo uid, .createUser uid,
                                  .createProfile uid, .createActivity uid] }) := by
  have hfi : fetch_user_info w uid s =
      (.ok ({ email_address := "", first_name := "", last_name := "",
              last_login := none }, false),
       { s with events := s.events ++ [.httpGetUserInfo uid] }) := by
    unfold fetch_user_info
    simp [hmiss, hstatus]
  refine ⟨hfi, ?_⟩
  unfold decode_jwt
  rw [get_jwks_cache_hit w s jd t hc ht]
  simp only [hk, hdec, hsub, huid, if_neg huid, hnew, hfi]
  simp [createUser, createProfile, createActivity, Db.findUser, hnew]
  have hnew2 : List.find? (fun u => u.username == uid) s.db.users = none := hnew
  simp [hnew2, List.append_assoc]

/-- C5 witness: subject user_123 unseen, provider answering 404. -/
theorem C5_witness :
    fetch_user_info world404 "user_123" st0 =
      (.ok ({ email_address := "", first_name := "", last_name := "",
              last_login := none }, false),
       { st0 with events := [.httpGetUserInfo "user_123"] }) ∧
    decode_jwt world404 0 (tokenOf 5 none "user_123") st0 =
      (.ok (some { username := "user_123", first_name := "", last_name := "",
                   email := "" }),
       { st0 with
           db := { users := [{ username := "user_123", first_name := "",
                               last_name := "", email := "" }]
                   profiles := ["user_123"]
                   activities := ["user_123"] }
           events := [.httpGetUserInfo "user_123", .createUser "user_123",
                      .createProfile "user_123", .createActivity "user_123"] }) :=
  C5_soft_failure world404 0 (tokenOf 5 none "user_123") st0
    jwksAB .never jwkA [jwkB] [("sub", "user_123")] "user_123"
    (by decide) (by decide) (by decide) (by decide) (by decide) (by decide)
    (by decide) (by decide) (by decide)

/-- C6 counterexample: two parts of the original claim fail at concrete
inputs. First, with an empty cache, a GET answered with status 204 - a
success status of the 2xx class - still makes get_jwks raise
AuthenticationFailed("Failed to fetch JWKS."): the code tests for status
200 exactly, not for a success status. Second, when the cache does hold
a value under the jwks_data key but that value is falsy (a body without
a "keys" entry), get_jwks still performs the outbound HTTP GET, so a
held value does not prevent the request. -/
theorem C6_counterexample :
    (httpSuccessCode 204 = true ∧
     get_jwks world204 stNoJwks =
       (.error (.authFailed "Failed to fetch JWKS."),
        { stNoJwks with events := [Event.httpGetJwks] })) ∧
    (stFalsyJwks.cache.jwksEntry = some (jwksNoKeys, .never) ∧
     (get_jwks world0 stFalsyJwks).2.events = [Event.httpGetJwks]) := by
  decide

/-- C6 (amended): get_jwks performs no outbound HTTP request when the
cache holds a truthy value under the jwks_data key; on a cache miss
(no cached value, or a falsy cached value) it performs the HTTP GET, and
it raises AuthenticationFailed("Failed to fetch JWKS.") if and only if
that GET returns a status other than exactly 200, otherwise storing the
response body under the fixed key with no expiry (Timeout.never, see
jwksStoreTimeout) and returning it. -/
theorem C6_get_jwks_spec (w : World) (s : St) :
    (∀ d t, s.cache.jwksEntry = some (d, t) → d.isTruthy = true →
        get_jwks w s = (.ok d, s)) ∧
    (jwksCacheMiss s → w.jwksStatus = 200 →
        get_jwks w s =
          (.ok w.jwksBody,
           { s with
               cache := { s.cache with jwksEntry := some (w.jwksBody, .never) }
               events := s.events ++ [.httpGetJwks] })) ∧
    (jwksCacheMiss s → w.jwksStatus ≠ 200 →
        get_jwks w s =
          (.error (.authFailed "Failed to fetch JWKS."),
           { s with events := s.events ++ [.httpGetJwks] })) := by
  refine ⟨fun d t hcc htt => get_jwks_cache_hit w s d t hcc htt, ?_, ?_⟩
  · intro hm h200
    rcases hm with hmc | ⟨d, t, hcc, hf⟩
    · unfold get_jwks fetchJwksFromProvider
      simp [hmc, h200, jwksStoreTimeout]
    · unfold get_jwks fetchJwksFromProvider
      simp [hcc, hf, h200, jwksStoreTimeout]
  · intro hm hne
    rcases hm with hmc | ⟨d, t, hcc, hf⟩
    · unfold get_jwks fetchJwksFromProvider
      simp [hmc, hne]
    · unfold get_jwks fetchJwksFromProvider
      simp [hcc, hf, hne]

/-- C6 witness: a cache hit is served without an HTTP event; a miss with
a 200 answer stores and returns the body with one GET event; a miss with
a 404 answer raises with one GET event. -/
theorem C6_witness :
    get_jwks world0 st0 = (.ok jwksAB, st0) ∧
    get_jwks world0 stNoJwks =
      (.ok world0.jwksBody,
       { stNoJwks with
           cache := { stNoJwks.cache with jwksEntry := some (world0.jwksBody, .never) }
           events := stNoJwks.events ++ [.httpGetJwks] }) ∧
    get_jwks world204 stNoJwks =
      (.error (.authFailed "Failed to fetch JWKS."),
       { stNoJwks with events := stNoJwks.events ++ [.httpGetJwks] }) :=
  ⟨(C6_get_jwks_spec world0 st0).1 jwksAB .never (by decide) (by decide),
   (C6_get_jwks_spec world0 stNoJwks).2.1 (Or.inl (by decide)) (by decide),
   (C6_get_jwks_spec world204 stNoJwks).2.2 (Or.inl (by decide)) (by decide)⟩

end Pamahres
